import Mathlib

/-!
Verification of the spatiotemporal sampling and collation pipeline of
`opencood/data_utils/datasets/intermediate_fusion_dataset_opv2v_delay_multisweep.py`
(class `IntermediateFusionDatasetMultisweep`).

The Python code is shallowly embedded: machine integers are `Int`/`Nat`
(Python integers are unbounded), fallible operations return `Except PyErr`,
and the index arithmetic of `retrieve_base_data` is translated line by line,
including the leaked loop variable `i` from the scenario scan.
-/

/-- Python exception kinds raised by the embedded code. -/
inductive PyErr where
  | keyError (k : String)
  | indexError
  | nameError (v : String)
  | assertionError
  | valueError (msg : String)
  | typeError
  deriving DecidableEq, Repr

/-- Python list subscription `l[n]`: negative indices wrap once from the
end; anything still out of range raises `IndexError`. -/
def pyListGet {α : Type} (l : List α) (n : Int) : Except PyErr α :=
  let m : Int := if n < 0 then n + l.length else n
  if m < 0 then .error .indexError
  else
    match l.get? m.toNat with
    | some a => .ok a
    | none => .error .indexError

/-!
## Scenario scan (`retrieve_base_data`, lines 236-240)

```python
scenario_index = 0
for i, ele in enumerate(self.len_record):
    if idx < ele:
        scenario_index = i
        break
```
The loop variable `i` stays in scope after the loop; line 264 reads it
(`idx + i ...`).  When the loop breaks, `i == scenario_index`; when it does
not break (an index past the last cumulative length), `scenario_index`
remains 0 while `i` is the last enumerate position.
-/

/-- First position `i` in `len_record` with `idx < len_record[i]`. -/
def scenarioScanAux : List Int → Int → Nat → Option Nat
  | [], _, _ => none
  | e :: rest, idx, i => if idx < e then some i else scenarioScanAux rest idx (i + 1)

/-- `scenario_index` after the scan loop (0 when the loop never breaks). -/
def scenario_index (lr : List Int) (idx : Int) : Nat :=
  (scenarioScanAux lr idx 0).getD 0

/-- The leftover loop variable `i` after the scan loop (last enumerate
position when the loop never breaks). -/
def scan_loop_i (lr : List Int) (idx : Int) : Nat :=
  (scenarioScanAux lr idx 0).getD (lr.length - 1)

/-!
## Frame-position arithmetic (`retrieve_base_data`, lines 262-293)

Current frame (lines 264-266) — note the leaked variable `i`:
```python
timestamp_index = idx + i if scenario_index == 0 else \
            idx + i - self.len_record[scenario_index - 1]
timestamp_index = timestamp_index + self.tau + self.k - 1
```
For the scenario's FIRST cav `i` here is the scenario-scan leftover; the
past-frame loop `for i in range(self.k)` (line 280) then overwrites `i`,
leaving `i = k - 1` when `k ≥ 1`, so for every LATER cav line 264 reads
`k - 1` instead (and still the scan leftover when `k = 0`).

Past frame `i` of `range(k)` (lines 276-285) — here `i` is the fresh frame
loop variable, and `temp = self.tau` for the ego, `0` otherwise:
```python
timestamp_index = idx + i if scenario_index == 0 else \
    idx + i - self.len_record[scenario_index - 1]
timestamp_index = timestamp_index + self.k - 1 - i + temp
```
-/

/-- Current-frame position computed at lines 264-266 for one cav, given
the value `iLeft` that the leaked variable `i` holds when the line runs
(see `leftover_i`). -/
def curr_timestamp_index (lr : List Int) (tau k idx iLeft : Int) : Int :=
  let s := scenario_index lr idx
  (if s = 0 then idx + iLeft else idx + iLeft - lr.getD (s - 1) 0) + tau + k - 1

/-- The value the leaked variable `i` holds at line 264 for the `c`-th cav
(0-based) of the scenario: the scenario-scan leftover for the first cav
(and for every cav when `k = 0`, since `range(0)` leaves `i` untouched),
and `k - 1` for every later cav, because the previous cav's past-frame
loop (line 280) overwrote `i`. -/
def leftover_i (lr : List Int) (idx : Int) (k : Nat) (c : Nat) : Int :=
  if c = 0 ∨ k = 0 then (scan_loop_i lr idx : Int) else (k : Int) - 1

/-- Past-frame position `i` computed by `retrieve_base_data`; `isEgo`
selects `temp = tau` (ego) versus `temp = 0` (non-ego). -/
def past_timestamp_index (lr : List Int) (tau k idx : Int) (isEgo : Bool)
    (i : Nat) : Int :=
  let s := scenario_index lr idx
  (if s = 0 then idx + (i : Int) else idx + (i : Int) - lr.getD (s - 1) 0)
    + (k - 1 - (i : Int)) + (if isEgo then tau else 0)

/-!
## Cumulative-length table (`__init__`, lines 134-142)

```python
num_ego_timestamps = len(timestamps) - (self.tau + self.k - 1)
if not self.len_record:
    self.len_record.append(num_ego_timestamps)
else:
    prev_last = self.len_record[-1]
    self.len_record.append(prev_last + num_ego_timestamps)
```
-/

/-- `len_record` built from the per-scenario frame counts `ts`. -/
def buildLenRecord (tau k : Int) (ts : List Int) : List Int :=
  ts.foldl (fun acc T => acc ++ [(acc.getLast?.getD 0) + (T - (tau + k - 1))]) []

/-!
## The spec's frame-position arithmetic (for comparison with the code)

Each definition below is modelled from the spec's words in §4.2, not from
the source; `offset` is the intra-scenario offset `idx - len_record[s-1]`.
-/

/-- Modelled from the spec: the ego agent's current-frame position is
`offset + τ + k - 1`. -/
def spec_ego_curr_pos (offset tau k : Int) : Int := offset + tau + k - 1

/-- Modelled from the spec: ego past-frame position `i` is
`offset + (k - 1 - i)`. -/
def spec_ego_past_pos (offset k i : Int) : Int := offset + (k - 1 - i)

/-- Modelled from the spec: a non-ego agent's current-frame position has no
added `τ` term, i.e. `offset + k - 1`. -/
def spec_nonego_curr_pos (offset k : Int) : Int := offset + k - 1

/-- Modelled from the spec: non-ego past-frame position `i` is
`offset + (k - 1 - i) + τ`. -/
def spec_nonego_past_pos (offset tau k i : Int) : Int := offset + (k - 1 - i) + tau

/-- Claim C1: for every valid flat index, `retrieve_base_data` selects frame
positions by the spec's arithmetic (ego current `offset + τ + k - 1`, ego
past `i` at `offset + (k - 1 - i)`, non-ego current without the `τ` term,
non-ego past `i` at `offset + (k - 1 - i) + τ`).  FALSE: with `τ = 1`,
`k = 2`, a single scenario of 5 frames (`len_record = [3]`) and `idx = 0`
(so `offset = 0`): the first cav (the ego) gets current position
`offset + scan_i + τ + k - 1 = 2` (agreeing with the spec's ego current),
but the non-ego second cav's current position reads the leftover
`i = k - 1` overwritten by the ego's past-frame loop, giving
`offset + (k - 1) + τ + k - 1 = 3` where the spec says 1; ego past
positions carry `τ` and are independent of `i` (the loop's `+ i` and `- i`
cancel), giving `[2, 2]` where the spec says `[1, 0]`; and non-ego past
positions drop `τ`, giving 1 where the spec says 2. -/
theorem retrieve_positions_contradict_spec :
    buildLenRecord 1 2 [5] = [3]
    ∧ leftover_i [3] 0 2 0 = 0
    ∧ curr_timestamp_index [3] 1 2 0 (leftover_i [3] 0 2 0) = 2
    ∧ spec_ego_curr_pos 0 1 2 = 2
    ∧ leftover_i [3] 0 2 1 = 1
    ∧ curr_timestamp_index [3] 1 2 0 (leftover_i [3] 0 2 1) = 3
    ∧ spec_nonego_curr_pos 0 2 = 1
    ∧ curr_timestamp_index [3] 1 2 0 (leftover_i [3] 0 2 1) ≠ spec_nonego_curr_pos 0 2
    ∧ past_timestamp_index [3] 1 2 0 true 0 = 2
    ∧ past_timestamp_index [3] 1 2 0 true 1 = 2
    ∧ spec_ego_past_pos 0 2 0 = 1
    ∧ spec_ego_past_pos 0 2 1 = 0
    ∧ past_timestamp_index [3] 1 2 0 true 0 ≠ spec_ego_past_pos 0 2 0
    ∧ past_timestamp_index [3] 1 2 0 false 0 = 1
    ∧ spec_nonego_past_pos 0 1 2 0 = 2
    ∧ past_timestamp_index [3] 1 2 0 false 0 ≠ spec_nonego_past_pos 0 1 2 0 := by
  decide

/-- Claim C2: for every flat index with `0 ≤ idx < len_record[-1]`, every
position computed by `retrieve_base_data` satisfies
`0 ≤ position < frame_count`.  FALSE: with two scenarios of 3 frames each,
`τ = 0`, `k = 1` (`len_record = [3, 6]`), the valid index `idx = 5` yields
current position 3 = frame_count for the scenario's first cav — whose
leftover `i` is the scenario-scan value 1 — because that scan variable
leaks into the offset (`idx + i`). -/
theorem retrieve_position_out_of_range :
    buildLenRecord 0 1 [3, 3] = [3, 6]
    ∧ (0 ≤ (5 : Int) ∧ (5 : Int) < 6)
    ∧ leftover_i [3, 6] 5 1 0 = 1
    ∧ curr_timestamp_index [3, 6] 0 1 5 (leftover_i [3, 6] 5 1 0) = 3
    ∧ ¬((3 : Int) < 3) := by
  decide

/-!
## Data model of the scenario database and `retrieve_base_data`

`scenario_database[i][cav_id]` is an `OrderedDict` whose FIRST key is
`'ego'` (a bool) followed by the timestamp keys (`__init__`, lines
119-160); `list(cav_content.items())[timestamp_index]` therefore indexes a
list whose slot 0 is the `'ego'` entry.  The yaml/pcd loaders live outside
this repository's sources and are passed in as opaque total functions.
-/

/-- One timestamp entry of a cav track: the yaml and lidar file paths. -/
structure Frame where
  yaml : String
  lidar : String
  deriving DecidableEq

/-- One cav of one scenario: the `'ego'` flag followed by the
ordered-by-timestamp frame entries. -/
structure CavTrack where
  ego : Bool
  timestamps : List (String × Frame)
  deriving DecidableEq

/-- Parsed yaml parameters; the pipeline only reads `lidar_pose`. -/
structure Params where
  lidar_pose : List ℚ
  deriving DecidableEq

/-- A point cloud: rows of coordinates. -/
abbrev Cloud := List (List ℚ)

/-- One loaded frame in `retrieve_base_data`'s output
(`{'params': ..., 'lidar_np': ..., 'timestamp': ...}`). -/
structure FrameData where
  params : Params
  lidar_np : Cloud
  timestamp : String
  deriving DecidableEq

/-- A value stored in a retrieved per-cav dict: the `'ego'` bool, a frame
dict, or the int-keyed `'past_k'` dict. -/
inductive RVal where
  | b (x : Bool)
  | fr (f : FrameData)
  | pk (m : List (Nat × FrameData))
  deriving DecidableEq

/-- `retrieve_base_data`'s per-cav output dict, in insertion order
(`'ego'`, `'past_k'`, `'curr'`; lines 258-263). -/
abbrev RetrievedCav := List (String × RVal)

/-- Keys of `list(cav_content.items())`: slot 0 is `'ego'`, the rest are
the timestamp keys in order. -/
def cavItemsKeys (c : CavTrack) : List String :=
  "ego" :: c.timestamps.map Prod.fst

/-- `cav_content[timestamp_key]['yaml'/'lidar']`: the key `'ego'` holds a
bool, which Python cannot subscript (`TypeError`); other keys are looked
up among the timestamps (`KeyError` when absent). -/
def cavFrameAt (c : CavTrack) (key : String) : Except PyErr Frame :=
  if key = "ego" then .error .typeError
  else
    match c.timestamps.lookup key with
    | some f => .ok f
    | none => .error (.keyError key)

/-- `retrieve_base_data`'s body for one cav (lines 258-293): load the
current frame at `curr_timestamp_index` — with `iLeft` the value the
leaked variable `i` holds for this cav — then the `k` past frames at
`past_timestamp_index`, and build the dict with keys `'ego'`, `'past_k'`,
`'curr'`. -/
def retrieveCav (loadYaml : String → Params) (loadPcd : String → Cloud)
    (tau k : Nat) (lr : List Int) (idx : Int) (iLeft : Int) (c : CavTrack) :
    Except PyErr RetrievedCav := do
  let keyC ← pyListGet (cavItemsKeys c)
    (curr_timestamp_index lr (tau : Int) (k : Int) idx iLeft)
  let fC ← cavFrameAt c keyC
  let curr : FrameData := ⟨loadYaml fC.yaml, loadPcd fC.lidar, keyC⟩
  let past ← (List.range k).mapM (fun i => do
    let keyP ← pyListGet (cavItemsKeys c)
      (past_timestamp_index lr (tau : Int) (k : Int) idx c.ego i)
    let fP ← cavFrameAt c keyP
    pure (i, (⟨loadYaml fP.yaml, loadPcd fP.lidar, keyP⟩ : FrameData)))
  pure [("ego", RVal.b c.ego), ("past_k", RVal.pk past), ("curr", RVal.fr curr)]

/-- The loop of `retrieve_base_data` over all cavs of the resolved
scenario (line 245); `cpos` is the 0-based position of the cav in the
scenario, which determines the leaked variable's value via
`leftover_i`. -/
def retrieveLoop (ly : String → Params) (lp : String → Cloud)
    (tau k : Nat) (lr : List Int) (idx : Int) :
    Nat → List (String × CavTrack) → Except PyErr (List (String × RetrievedCav))
  | _, [] => .ok []
  | cpos, (cid, c) :: rest => do
      let rc ← retrieveCav ly lp tau k lr idx (leftover_i lr idx k cpos) c
      let tail ← retrieveLoop ly lp tau k lr idx (cpos + 1) rest
      pure ((cid, rc) :: tail)

/-- The scenario database built by `__init__` plus its cumulative-length
table. -/
structure ScenarioDB where
  scenarios : List (List (String × CavTrack))
  len_record : List Int

/-- `retrieve_base_data` (lines 180-295): resolve the scenario by the
cumulative-length scan, then load every cav of that scenario. -/
def retrieve_base_data (ly : String → Params) (lp : String → Cloud)
    (tau k : Nat) (db : ScenarioDB) (idx : Int) :
    Except PyErr (List (String × RetrievedCav)) :=
  retrieveLoop ly lp tau k db.len_record idx 0
    (db.scenarios.getD (scenario_index db.len_record idx) [])

/-!
## `__getitem__`, lines 315-327: the ego-pose lookup

```python
for cav_id, cav_content in base_data_dict.items():
    if cav_content['ego']:
        ego_id = cav_id
        ego_lidar_pose = cav_content['params']['lidar_pose']
        break
assert cav_id == list(base_data_dict.keys())[0], ...
assert ego_id != -1
```
-/

/-- Truthiness of `cav_content['ego']` for the loop's `if`. -/
def isEgoEntry (p : String × RetrievedCav) : Bool :=
  match p.2.lookup "ego" with
  | some (RVal.b e) => e
  | _ => false

/-- Subscripting a retrieved value with `'lidar_pose'`.  Only reachable on
the dead branch where the cav dict had a `'params'` key; none of the three
value kinds a retrieved dict can hold maps `"lidar_pose"` to a pose: a bool
is not subscriptable, a frame dict is keyed by
`params`/`lidar_np`/`timestamp`, and `past_k` is keyed by ints. -/
def rvalPoseSubscript (v : RVal) : Except PyErr (List ℚ) :=
  match v with
  | .b _ => .error .typeError
  | .fr _ => .error (.keyError "lidar_pose")
  | .pk _ => .error (.keyError "lidar_pose")

/-- The ego-pose lookup of `__getitem__` (lines 315-327).  When a cav with
a truthy `'ego'` exists, the loop body reads `cav_content['params']`
before breaking; when none exists, the loop runs to completion and the
post-loop code reads the loop variable `cav_id` (`NameError` on an empty
dict) and then fails one of the two assertions (`cav_id` is not the first
key, or `ego_id` is still `-1`). -/
def getitem_ego_pose (data : List (String × RetrievedCav)) :
    Except PyErr (String × List ℚ) :=
  match data.find? isEgoEntry with
  | some (cid, cav) =>
      match cav.lookup "params" with
      | some v => do
          let pose ← rvalPoseSubscript v
          pure (cid, pose)
      | none => .error (.keyError "params")
  | none =>
      if data.isEmpty then .error (.nameError "cav_id")
      else .error .assertionError

/-- `__getitem__` (line 298 onward): retrieve the base data, then look up
the ego pose.  Line 321 raises before any later step (range filter,
per-agent processing, label merging, collation of the output dict) can
run, so the embedding of the method ends at the first phase. -/
def getitem_embed (ly : String → Params) (lp : String → Cloud)
    (tau k : Nat) (db : ScenarioDB) (idx : Int) :
    Except PyErr (String × List ℚ) := do
  let data ← retrieve_base_data ly lp tau k db idx
  getitem_ego_pose data

/-- Number of positional arguments `__getitem__` passes to
`get_item_single_car` (lines 361-366: `selected_cav_base`,
`ego_lidar_pose`, `cav_id == ego_id`, `idx`). -/
def getitem_single_car_call_args : Nat := 4

/-- Number of parameters `get_item_single_car` accepts besides `self`
(line 462: `selected_cav_base`, `ego_pose`, `idx`). -/
def get_item_single_car_param_count : Nat := 3

/-- Inversion of a successful `Except` bind. -/
theorem except_bind_ok {α β : Type} {e : Except PyErr α} {f : α → Except PyErr β}
    {b : β} (h : (e >>= f) = .ok b) : ∃ a, e = .ok a ∧ f a = .ok b := by
  cases e with
  | error _ => simp [Bind.bind, Except.bind] at h
  | ok a => exact ⟨a, rfl, by simpa [Bind.bind, Except.bind] using h⟩

/-- A dict produced by `retrieveCav` holds exactly the keys `'ego'`,
`'past_k'`, `'curr'`; in particular `'params'` is absent. -/
theorem retrieveCav_no_params {ly lp tau k lr idx iLeft c rc}
    (h : retrieveCav ly lp tau k lr idx iLeft c = .ok rc) :
    rc.lookup "params" = none := by
  unfold retrieveCav at h
  obtain ⟨keyC, _, h⟩ := except_bind_ok h
  obtain ⟨fC, _, h⟩ := except_bind_ok h
  obtain ⟨past, _, h⟩ := except_bind_ok h
  simp only [pure, Except.pure, Except.ok.injEq] at h
  subst h
  rfl

/-- Every cav dict in `retrieveLoop`'s output lacks the key `'params'`,
from any starting cav position. -/
theorem retrieveLoop_no_params {ly lp tau k lr idx} :
    ∀ (cavs : List (String × CavTrack)) (cpos : Nat) res,
      retrieveLoop ly lp tau k lr idx cpos cavs = .ok res →
      ∀ p ∈ res, (p.2 : RetrievedCav).lookup "params" = none := by
  intro cavs
  induction cavs with
  | nil =>
    intro cpos res h p hp
    simp only [retrieveLoop, Except.ok.injEq] at h
    subst h
    simp at hp
  | cons hd tl ih =>
    intro cpos res h p hp
    obtain ⟨cid, c⟩ := hd
    simp only [retrieveLoop] at h
    obtain ⟨rc, hrc, h⟩ := except_bind_ok h
    obtain ⟨tail, htl, h⟩ := except_bind_ok h
    simp only [pure, Except.pure, Except.ok.injEq] at h
    subst h
    rcases List.mem_cons.mp hp with hp | hp
    · subst hp
      exact retrieveCav_no_params hrc
    · exact ih (cpos + 1) tail htl p hp

/-- Whether an embedded computation raised an exception. -/
def raised {α : Type} : Except PyErr α → Bool
  | .error _ => true
  | .ok _ => false

/-- Claim C9: for every flat index, `__getitem__` raises an exception
before returning an assembled sample — it reads each agent's pose as
`cav_content['params']['lidar_pose']`, but `retrieve_base_data` stores
per-agent data only under `'ego'`, `'curr'` and `'past_k'`; and it passes
`get_item_single_car` four positional arguments though the method accepts
only three. -/
theorem getitem_always_raises (ly : String → Params) (lp : String → Cloud)
    (tau k : Nat) (db : ScenarioDB) (idx : Int) :
    raised (getitem_embed ly lp tau k db idx) = true
    ∧ getitem_single_car_call_args ≠ get_item_single_car_param_count := by
  refine ⟨?_, by decide⟩
  unfold getitem_embed
  cases hr : retrieve_base_data ly lp tau k db idx with
  | error e => simp [raised, Bind.bind, Except.bind, hr]
  | ok data =>
    simp only [Bind.bind, Except.bind, hr]
    unfold getitem_ego_pose
    cases hf : data.find? isEgoEntry with
    | none =>
      by_cases hd : data.isEmpty <;> simp [hf, hd, raised]
    | some p =>
      obtain ⟨cid, cav⟩ := p
      have hmem : (cid, cav) ∈ data := List.mem_of_find?_eq_some hf
      have hnp : (cav : RetrievedCav).lookup "params" = none :=
        retrieveLoop_no_params _ 0 _ hr (cid, cav) hmem
      simp [hf, hnp, raised]

/-- A concrete scenario database for evaluating `__getitem__`: one
scenario, the ego (`cav0`, at the origin) and one in-range agent (`cav1`),
five shared timestamps. -/
def commScenarioTrack (e : Bool) : CavTrack :=
  ⟨e, ["000000", "000001", "000002", "000003", "000004"].map
      (fun t => (t, ⟨t ++ ".yaml", t ++ ".pcd"⟩))⟩

/-- The database holding `commScenarioTrack` for two cavs, with the
cumulative-length table `__init__` builds for `τ = 1`, `k = 2`. -/
def commDB : ScenarioDB :=
  ⟨[[("cav0", commScenarioTrack true), ("cav1", commScenarioTrack false)]],
   buildLenRecord 1 2 [5]⟩

/-- Claim C3: an agent beyond `comm_range` never appears in the assembled
sample's `cav_id_list`.  The communication-range filter (lines 337-351) is
dead code: at the concrete in-range input below (`τ = 1`, `k = 2`,
`idx = 1`, both agents at pose 0, any positive range), `__getitem__`
raises `KeyError('params')` at the ego-pose lookup (line 321) — and line
350 reads `selected_cav_base['params']` for every in-range agent — so no
sample (and no `cav_id_list`) is ever returned. -/
theorem getitem_keyerror_before_comm_range_filter :
    getitem_embed (fun _ => ⟨[0, 0, 0, 0, 0, 0]⟩) (fun _ => []) 1 2 commDB 1
      = .error (.keyError "params") := by
  rfl

/-!
## `get_item_single_car` (lines 462-542)

For `k ≥ 1` the first statement of the past-frame loop is
```python
transformation_matrix = \
    x1_to_x2(selected_cav_base['past_k']['params']['lidar_pose'], ego_pose)
```
which subscripts the int-keyed `past_k` dict with the string `'params'`
(`KeyError`); the next line reads the non-existent top-level key
`'lidar_np'`.  For `k = 0` the loop never runs; line 530 reads
`selected_cav_base['curr']`, `x1_to_x2` and `generate_object_center`
(opaque collaborators) are applied, and line 538 then reads the
never-assigned local `projected_lidar` (`NameError`).  No path returns, so
the success payload is unreachable and modelled as `Unit`. -/
def get_item_single_car (x1_to_x2 : List ℚ → List ℚ → List (List ℚ))
    (genObjCenter : FrameData → List ℚ → List (List ℚ) × List ℚ × List Int)
    (k : Nat) (selected_cav_base : RetrievedCav) (ego_pose : List ℚ)
    (idx : Int) : Except PyErr Unit :=
  if 0 < k then
    match selected_cav_base.lookup "past_k" with
    | some (RVal.pk _) => .error (.keyError "params")
    | some _ => .error .typeError
    | none => .error (.keyError "past_k")
  else
    match selected_cav_base.lookup "curr" with
    | some (RVal.fr f) =>
        let _tm := x1_to_x2 f.params.lidar_pose ego_pose
        let _obj := genObjCenter f ego_pose
        .error (.nameError "projected_lidar")
    | some _ => .error .typeError
    | none => .error (.keyError "curr")

/-- Claim C6: the per-cloud steps (shuffle, self-mask, transform to ego
frame, range-crop, hand the cropped ego-frame cloud to the preprocessor)
never execute in that order: at the concrete retrieved-format input below
with `k = 1`, `get_item_single_car` raises `KeyError('params')` at the
loop's first statement; moreover lines 523-526 crop and preprocess the
un-projected `lidar_np`, keeping the ego-frame projection only as
`projected_lidar`. -/
theorem get_item_single_car_keyerror :
    get_item_single_car (fun _ _ => []) (fun _ _ => ([], [], [])) 1
      [("ego", RVal.b false), ("past_k", RVal.pk []),
       ("curr", RVal.fr ⟨⟨[0, 0, 0, 0, 0, 0]⟩, [], "000001"⟩)]
      [0, 0, 0, 0, 0, 0] 0
      = .error (.keyError "params") := by
  rfl

/-!
## Object deduplication and padding (`__getitem__`, lines 406-417, 437)

```python
unique_indices = [object_id_stack.index(x) for x in set(object_id_stack)]
object_stack = np.vstack(object_stack)
object_stack = object_stack[unique_indices]
object_bbx_center = np.zeros((self.params['postprocess']['max_num'], 7))
mask = np.zeros(self.params['postprocess']['max_num'])
object_bbx_center[:object_stack.shape[0], :] = object_stack
mask[:object_stack.shape[0]] = 1
...
'object_ids': [object_id_stack[i] for i in unique_indices]
```
This code is only reachable after the `KeyError` of line 321 is repaired;
it is embedded as a standalone fragment over its inputs.
-/

/-- Python `set(...)` of a list, with an accumulator of already-seen
elements.  CPython's set iteration order is implementation-defined; the
embedding fixes first-occurrence order, and the properties proved below
(which ids are kept, one index per unique id) do not depend on the
order. -/
def pySetAux (seen : List Int) : List Int → List Int
  | [] => []
  | x :: xs => if x ∈ seen then pySetAux seen xs else x :: pySetAux (x :: seen) xs

/-- Python `set(...)` of a list. -/
def pySet (l : List Int) : List Int := pySetAux [] l

/-- Membership in `pySetAux`. -/
theorem pySetAux_mem (y : Int) :
    ∀ (l seen : List Int), y ∈ pySetAux seen l ↔ y ∈ l ∧ y ∉ seen := by
  intro l
  induction l with
  | nil => intro seen; simp [pySetAux]
  | cons x xs ih =>
    intro seen
    by_cases hx : x ∈ seen
    · rw [pySetAux, if_pos hx, ih]
      constructor
      · rintro ⟨h1, h2⟩
        exact ⟨List.mem_cons.mpr (Or.inr h1), h2⟩
      · rintro ⟨h1, h2⟩
        rcases List.mem_cons.mp h1 with rfl | h1
        · exact absurd hx h2
        · exact ⟨h1, h2⟩
    · rw [pySetAux, if_neg hx]
      simp only [List.mem_cons, ih]
      constructor
      · rintro (rfl | ⟨h1, h2⟩)
        · exact ⟨Or.inl rfl, hx⟩
        · refine ⟨Or.inr h1, fun hs => h2 (by simp [hs])⟩
      · rintro ⟨h1, h2⟩
        rcases h1 with rfl | h1
        · exact Or.inl rfl
        · by_cases hyx : y = x
          · exact Or.inl hyx
          · exact Or.inr ⟨h1, by simp [hyx, h2]⟩

/-- `pySetAux` never repeats an element. -/
theorem pySetAux_nodup : ∀ (l seen : List Int), (pySetAux seen l).Nodup := by
  intro l
  induction l with
  | nil => intro seen; simp [pySetAux]
  | cons x xs ih =>
    intro seen
    by_cases hx : x ∈ seen
    · rw [pySetAux, if_pos hx]
      exact ih seen
    · rw [pySetAux, if_neg hx]
      refine List.nodup_cons.mpr ⟨?_, ih _⟩
      intro hmem
      have := (pySetAux_mem x xs (x :: seen)).mp hmem
      simp at this

/-- `pySet` keeps exactly the elements of the list, each once. -/
theorem pySet_mem_nodup (l : List Int) :
    (∀ x, x ∈ pySet l ↔ x ∈ l) ∧ (pySet l).Nodup := by
  refine ⟨fun x => ?_, pySetAux_nodup l []⟩
  rw [pySet, pySetAux_mem]
  simp

/-- `l[l.index(x)] = x` for a present element. -/
theorem getD_findIdx_self {x : Int} (d : Int) :
    ∀ {l : List Int}, x ∈ l → l.getD (l.findIdx (fun y => y == x)) d = x := by
  intro l
  induction l with
  | nil => intro h; simp at h
  | cons a t ih =>
    intro hmem
    by_cases hax : a = x
    · subst hax
      simp [List.findIdx_cons]
    · have hb : (a == x) = false := by simp [hax]
      have hxt : x ∈ t := by
        rcases List.mem_cons.mp hmem with h | h
        · exact absurd h.symm hax
        · exact h
      simp only [List.findIdx_cons, hb, cond_false, List.getD_cons_succ]
      exact ih hxt

/-- `l.index(x) < len(l)` for a present element. -/
theorem findIdx_lt_length_of_mem {x : Int} :
    ∀ {l : List Int}, x ∈ l → l.findIdx (fun y => y == x) < l.length := by
  intro l
  induction l with
  | nil => intro h; simp at h
  | cons a t ih =>
    intro hmem
    by_cases hax : a = x
    · subst hax
      simp [List.findIdx_cons]
    · have hb : (a == x) = false := by simp [hax]
      have hxt : x ∈ t := by
        rcases List.mem_cons.mp hmem with h | h
        · exact absurd h.symm hax
        · exact h
      simpa [List.findIdx_cons, hb, Nat.succ_lt_succ_iff] using ih hxt

/-- Numpy fancy indexing `rows[indices]`: gathers the rows, raising
`IndexError` on an out-of-range index. -/
def npFancyIndex (rows : List (List ℚ)) : List Nat → Except PyErr (List (List ℚ))
  | [] => .ok []
  | i :: rest => do
      let r ← (match rows.get? i with
               | some r => Except.ok r
               | none => Except.error PyErr.indexError)
      let t ← npFancyIndex rows rest
      pure (r :: t)

/-- `npFancyIndex` succeeds on in-range indices and gathers by position. -/
theorem npFancyIndex_ok (rows : List (List ℚ)) :
    ∀ (is : List Nat), (∀ i ∈ is, i < rows.length) →
      npFancyIndex rows is
        = .ok (is.map (fun i => rows.getD i (List.replicate 7 0))) := by
  intro is
  induction is with
  | nil => intro _; rfl
  | cons a t ih =>
    intro hb
    have ha : a < rows.length := hb a (by simp)
    have hg : rows.get? a = some (rows.getD a (List.replicate 7 0)) := by
      rw [List.getD_eq_getElem?_getD]
      cases hq : rows.get? a with
      | none => exact absurd (List.get?_eq_none.mp hq) (by omega)
      | some v => simp [← List.get?_eq_getElem?, hq]
    rw [npFancyIndex, hg, ih (fun i hi => hb i (by simp [hi]))]
    rfl

/-- The all-zero 7-entry box row of `np.zeros((max_num, 7))`. -/
def zeroBox7 : List ℚ := List.replicate 7 0

/-- The deduplicate-and-pad fragment of `__getitem__` (lines 406-417 and the
`'object_ids'` entry of line 437), over its inputs: the per-agent box
stacks, the concatenated id list, and `max_num`.  `np.vstack([])` raises
`ValueError`; the slice assignment `object_bbx_center[:n, :] = ...` raises
a broadcast `ValueError` when `n` exceeds `max_num`. -/
def getitem_dedup_pad (maxNum : Nat) (object_stack : List (List (List ℚ)))
    (object_id_stack : List Int) :
    Except PyErr (List (List ℚ) × List ℚ × List Int) :=
  let unique_indices := (pySet object_id_stack).map
    (fun x => object_id_stack.findIdx (fun y => y == x))
  if object_stack.isEmpty then .error (.valueError "vstack")
  else do
    let rows := object_stack.flatten
    let sel ← npFancyIndex rows unique_indices
    if maxNum < sel.length then .error (.valueError "broadcast")
    else
      .ok (sel ++ List.replicate (maxNum - sel.length) zeroBox7,
           List.replicate sel.length (1 : ℚ)
             ++ List.replicate (maxNum - sel.length) 0,
           unique_indices.map (fun i => object_id_stack.getD i 0))

/-- Claim C4 counterexample: with `max_num = 1` and two distinct object
ids, the slice assignment fails with a broadcast `ValueError` — excess
objects beyond `max_num` are NOT silently dropped. -/
theorem dedup_pad_overflow_raises :
    getitem_dedup_pad 1 [[[1, 1, 1, 1, 1, 1, 1]], [[2, 2, 2, 2, 2, 2, 2]]]
      [10, 20] = .error (.valueError "broadcast") := by
  rfl

/-- `l[n] = some (l.getD n d)` for an in-range position. -/
theorem get?_eq_getD_of_lt {α : Type} (d : α) {l : List α} {n : Nat}
    (h : n < l.length) : l.get? n = some (l.getD n d) := by
  rw [List.getD_eq_getElem?_getD]
  cases hq : l.get? n with
  | none => exact absurd (List.get?_eq_none.mp hq) (by omega)
  | some v => simp [← List.get?_eq_getElem?, hq]

/-- Claim C4 (amended): when the number of unique object ids fits in
`max_num`, the fragment keeps exactly one (first-seen) box per unique
global object id, pads them to a `(max_num, 7)` array, and the mask marks
exactly the retained boxes; a unique count exceeding `max_num` instead
raises a broadcast `ValueError` rather than silently dropping boxes. -/
theorem dedup_pad_amended (maxNum : Nat) (object_stack : List (List (List ℚ)))
    (ids : List Int) (hne : object_stack ≠ [])
    (hlen : ids.length = object_stack.flatten.length)
    (hmax : (pySet ids).length ≤ maxNum) :
    ∃ boxes mask kept,
      getitem_dedup_pad maxNum object_stack ids = .ok (boxes, mask, kept)
      ∧ kept.Nodup
      ∧ (∀ x, x ∈ kept ↔ x ∈ ids)
      ∧ boxes.length = maxNum
      ∧ (∀ j x, kept.get? j = some x →
          boxes.get? j
            = object_stack.flatten.get? (ids.findIdx (fun y => y == x)))
      ∧ mask = List.replicate kept.length (1 : ℚ)
          ++ List.replicate (maxNum - kept.length) 0 := by
  have hie : object_stack.isEmpty = false := by
    cases object_stack with
    | nil => exact absurd rfl hne
    | cons a t => rfl
  have hpys := pySet_mem_nodup ids
  have hbound : ∀ i ∈ (pySet ids).map (fun x => ids.findIdx (fun y => y == x)),
      i < object_stack.flatten.length := by
    intro i hi
    obtain ⟨x, hx, rfl⟩ := List.mem_map.mp hi
    have hxids : x ∈ ids := (hpys.1 x).mp hx
    have := findIdx_lt_length_of_mem hxids
    omega
  have hsel := npFancyIndex_ok object_stack.flatten _ hbound
  have hkept : ((pySet ids).map (fun x => ids.findIdx (fun y => y == x))).map
      (fun i => ids.getD i 0) = pySet ids := by
    rw [List.map_map]
    have : ∀ a ∈ pySet ids,
        ((fun i => ids.getD i 0) ∘ fun x => ids.findIdx (fun y => y == x)) a
          = id a := by
      intro a ha
      exact getD_findIdx_self 0 ((hpys.1 a).mp ha)
    rw [List.map_congr_left this, List.map_id]
  have hlensel :
      (((pySet ids).map (fun x => ids.findIdx (fun y => y == x))).map
        (fun i => object_stack.flatten.getD i (List.replicate 7 0))).length
      = (pySet ids).length := by
    simp
  rw [getitem_dedup_pad]
  simp only [hie, Bool.false_eq_true, if_false]
  rw [hsel]
  simp only [Bind.bind, Except.bind]
  rw [if_neg (by rw [hlensel]; omega)]
  refine ⟨_, _, _, rfl, ?_, ?_, ?_, ?_, ?_⟩
  · rw [hkept]
    exact hpys.2
  · intro x
    rw [hkept]
    exact hpys.1 x
  · simp only [List.length_append, List.length_map, List.length_replicate]
    omega
  · intro j x hjx
    rw [hkept] at hjx
    have hjlt : j < (pySet ids).length := by
      by_contra hge
      rw [List.get?_eq_none.mpr (by omega)] at hjx
      exact Option.noConfusion hjx
    have hxmem : x ∈ ids := (hpys.1 x).mp (List.get?_mem hjx)
    have hflt := findIdx_lt_length_of_mem hxmem
    rw [List.get?_append (by simpa using hjlt)]
    rw [List.get?_map, List.get?_map, hjx]
    rw [get?_eq_getD_of_lt (List.replicate 7 0) (by omega)]
    rfl
  · rw [hkept, hlensel]

/-- Witness for `dedup_pad_amended` at a concrete input: two agents
reporting one box each under distinct global ids, `max_num = 3`. -/
theorem dedup_pad_amended_witness :
    (([[[1, 1, 1, 1, 1, 1, 1]], [[2, 2, 2, 2, 2, 2, 2]]] :
        List (List (List ℚ))) ≠ [])
    ∧ ([10, 20] : List Int).length
        = ([[[1, 1, 1, 1, 1, 1, 1]], [[2, 2, 2, 2, 2, 2, 2]]] :
            List (List (List ℚ))).flatten.length
    ∧ (pySet [10, 20]).length ≤ 3
    ∧ (∃ boxes mask kept,
        getitem_dedup_pad 3 [[[1, 1, 1, 1, 1, 1, 1]], [[2, 2, 2, 2, 2, 2, 2]]]
          [10, 20] = .ok (boxes, mask, kept)
        ∧ kept.Nodup
        ∧ (∀ x, x ∈ kept ↔ x ∈ ([10, 20] : List Int))
        ∧ boxes.length = 3
        ∧ (∀ j x, kept.get? j = some x →
            boxes.get? j
              = ([[[1, 1, 1, 1, 1, 1, 1]], [[2, 2, 2, 2, 2, 2, 2]]] :
                  List (List (List ℚ))).flatten.get?
                  (([10, 20] : List Int).findIdx (fun y => y == x)))
        ∧ mask = List.replicate kept.length (1 : ℚ)
            ++ List.replicate (3 - kept.length) 0) :=
  ⟨by simp, by rfl, by decide,
   dedup_pad_amended 3 _ _ (by simp) (by rfl) (by decide)⟩

/-!
## `__init__`'s cav loop (lines 114-119)

```python
for (j, cav_id) in enumerate(cav_list):
    if j > self.max_cav - 1:
        print('too many cavs')
        break
    self.scenario_database[i][cav_id] = OrderedDict()
```
The skipped agents are only reported by a `print`; no exception is raised
and nothing is recorded for them.
-/

/-- The enumerate loop of `__init__` over one scenario's sorted cav list,
returning the cav ids actually recorded in the scenario database. -/
def initCavLoop (maxCav : Int) : Int → List String → List String
  | _, [] => []
  | j, c :: rest =>
      if j > maxCav - 1 then []
      else c :: initCavLoop maxCav (j + 1) rest

/-- `initCavLoop` from counter `j` records the first `max_cav - j` cavs. -/
theorem initCavLoop_take (maxCav : Int) :
    ∀ (cavs : List String) (j : Int),
      initCavLoop maxCav j cavs = cavs.take (maxCav - j).toNat := by
  intro cavs
  induction cavs with
  | nil => intro j; simp [initCavLoop]
  | cons c rest ih =>
    intro j
    rw [initCavLoop]
    by_cases h : j > maxCav - 1
    · have h0 : (maxCav - j).toNat = 0 := by omega
      rw [if_pos h, h0]
      rfl
    · have h1 : (maxCav - j).toNat = (maxCav - (j + 1)).toNat + 1 := by omega
      rw [if_neg h, h1, ih (j + 1)]
      rfl

/-- Claim C10: after index construction every scenario holds at most
`max_cav` agents — the recorded cav ids are exactly the first `max_cav`
of the sorted cav list, the rest are skipped without being recorded and
without an exception (the loop only prints and breaks), so every later
per-sample loop iterates over at most `max_cav` agents. -/
theorem init_cav_truncation (maxCav : Int) (cavs : List String) :
    initCavLoop maxCav 0 cavs = cavs.take maxCav.toNat
    ∧ (initCavLoop maxCav 0 cavs).length ≤ maxCav.toNat := by
  have h := initCavLoop_take maxCav cavs 0
  rw [Int.sub_zero] at h
  refine ⟨h, ?_⟩
  rw [h]
  simpa using Nat.min_le_left maxCav.toNat cavs.length

/-!
## `get_pairwise_transformation` (lines 757-802)

```python
pairwise_t_matrix = np.tile(np.eye(4), (max_cav, max_cav, 1, 1))
if self.proj_first:
    return pairwise_t_matrix
else:
    t_list = []
    for cav_id, cav_content in base_data_dict.items():
        lidar_pose = cav_content['params']['lidar_pose']
        t_list.append(x_to_world(lidar_pose))
    for i in range(len(t_list)):
        for j in range(len(t_list)):
            if i != j:
                t_matrix = np.linalg.solve(t_list[j], t_list[i])
                pairwise_t_matrix[i, j] = t_matrix
```
The `(L, L, 4, 4)` tensor is modelled by its index map; the writes stay
within bounds because callers keep `len(t_list) ≤ max_cav` (`__init__`
truncates each scenario to `max_cav` cavs and `__getitem__` only pops
entries).  `x_to_world` lives in `opencood/utils/transformation_utils.py`,
outside this repository's sources, and is passed in as an opaque function.
-/

/-- A 4×4 homogeneous transform over exact rationals. -/
abbrev Mat4 := Matrix (Fin 4) (Fin 4) ℚ

/-- `np.linalg.solve(A, B)`: the solution `X` of `A @ X = B`, written via
the adjugate so it is executable.  On a singular `A` numpy raises
`LinAlgError`; the embedding is only used under a nonsingular
hypothesis. -/
def np_linalg_solve (A B : Mat4) : Mat4 := (A.det)⁻¹ • (A.adjugate * B)

/-- `np_linalg_solve` really is a linear solve: it satisfies
`A @ X = B` whenever `A` is nonsingular. -/
theorem np_linalg_solve_is_solve (A B : Mat4) (h : A.det ≠ 0) :
    A * np_linalg_solve A B = B := by
  unfold np_linalg_solve
  rw [Matrix.mul_smul, ← Matrix.mul_assoc, Matrix.mul_adjugate,
    Matrix.smul_mul, one_mul, smul_smul, inv_mul_cancel₀ h, one_smul]

/-- Per-cav input of `get_pairwise_transformation`, per its docstring: a
dict whose `params` hold a `lidar_pose`. -/
structure PWCav where
  lidar_pose : List ℚ

/-- Numpy assignment `pairwise_t_matrix[a, b] = v`, as a pointwise update
of the index map. -/
def setEntry (g : Nat → Nat → Mat4) (a b : Nat) (v : Mat4) :
    Nat → Nat → Mat4 :=
  fun i j => if i = a ∧ j = b then v else g i j

/-- `get_pairwise_transformation` (lines 757-802). -/
def get_pairwise_transformation (x_to_world : List ℚ → Mat4)
    (proj_first : Bool) (base_data : List PWCav) (max_cav : Nat) :
    Nat → Nat → Mat4 :=
  let pairwise_t_matrix : Nat → Nat → Mat4 := fun _ _ => 1
  if proj_first then pairwise_t_matrix
  else
    let t_list := base_data.map (fun c => x_to_world c.lidar_pose)
    (List.range t_list.length).foldl (fun g i =>
      (List.range t_list.length).foldl (fun g2 j =>
        if i ≠ j then
          setEntry g2 i j (np_linalg_solve (t_list.getD j 1) (t_list.getD i 1))
        else g2) g) pairwise_t_matrix

/-- The inner `for j` loop writes exactly the cells `(i, j)` with
`j ∈ js`, `i ≠ j`. -/
theorem foldl_inner_get (i : Nat) (v : Nat → Mat4) :
    ∀ (js : List Nat) (g : Nat → Nat → Mat4) (a b : Nat),
      ((js.foldl (fun g2 j => if i ≠ j then setEntry g2 i j (v j) else g2) g) a b)
      = if a = i ∧ b ∈ js ∧ i ≠ b then v b else g a b := by
  intro js
  induction js with
  | nil => intro g a b; simp
  | cons j t ih =>
    intro g a b
    rw [List.foldl_cons, ih]
    simp only [ite_apply, setEntry, List.mem_cons]
    split_ifs <;> (try simp_all) <;> omega

/-- The double loop writes exactly the cells `(i, j)` with
`i ∈ is`, `j < N`, `i ≠ j`. -/
theorem foldl_outer_get (v : Nat → Nat → Mat4) (N : Nat) :
    ∀ (is : List Nat) (g : Nat → Nat → Mat4) (a b : Nat),
      ((is.foldl (fun g i => (List.range N).foldl
          (fun g2 j => if i ≠ j then setEntry g2 i j (v i j) else g2) g) g) a b)
      = if a ∈ is ∧ b < N ∧ a ≠ b then v a b else g a b := by
  intro is
  induction is with
  | nil => intro g a b; simp
  | cons i t ih =>
    intro g a b
    rw [List.foldl_cons, ih, foldl_inner_get]
    simp only [List.mem_range, List.mem_cons]
    split_ifs <;> simp_all

/-- `(l.map f).getD n d = f (l.getD n d0)` for an in-range position. -/
theorem getD_map_lt {α β : Type} (f : α → β) (d : β) (d0 : α) :
    ∀ (l : List α) (n : Nat), n < l.length → (l.map f).getD n d = f (l.getD n d0) := by
  intro l
  induction l with
  | nil => intro n h; simp at h
  | cons a t ih =>
    intro n h
    cases n with
    | zero => rfl
    | succ m =>
      simp only [List.map_cons, List.getD_cons_succ]
      exact ih m (by simpa using h)

/-- Claim C5: `get_pairwise_transformation` always yields identity on the
diagonal and in unused slots; when `proj_first` is true it is the
all-identity tensor unconditionally, regardless of input poses; otherwise
for retained agents `i ≠ j` the entry `[i, j]` is
`np.linalg.solve(t_list[j], t_list[i])` — a linear solve against agent
`j`'s world matrix mapping agent `i`'s frame into agent `j`'s frame
(`t_j * entry = t_i`), not an explicit inverse. -/
theorem pairwise_transformation_spec (x_to_world : List ℚ → Mat4)
    (proj_first : Bool) (base_data : List PWCav) (max_cav : Nat)
    (hdet : ∀ p, (x_to_world p).det ≠ 0) :
    (proj_first = true → ∀ i j,
        get_pairwise_transformation x_to_world proj_first base_data max_cav i j = 1)
    ∧ (∀ i j, i = j ∨ base_data.length ≤ i ∨ base_data.length ≤ j →
        get_pairwise_transformation x_to_world proj_first base_data max_cav i j = 1)
    ∧ (proj_first = false → ∀ i j, i < base_data.length → j < base_data.length →
        i ≠ j →
        get_pairwise_transformation x_to_world proj_first base_data max_cav i j
          = np_linalg_solve (x_to_world ((base_data.getD j ⟨[]⟩).lidar_pose))
              (x_to_world ((base_data.getD i ⟨[]⟩).lidar_pose))
        ∧ x_to_world ((base_data.getD j ⟨[]⟩).lidar_pose)
            * get_pairwise_transformation x_to_world proj_first base_data max_cav i j
          = x_to_world ((base_data.getD i ⟨[]⟩).lidar_pose)) := by
  cases proj_first with
  | true =>
    exact ⟨fun _ i j => rfl, fun i j _ => rfl, fun h => by simp at h⟩
  | false =>
    have hmain : ∀ i j,
        get_pairwise_transformation x_to_world false base_data max_cav i j
        = if i < base_data.length ∧ j < base_data.length ∧ i ≠ j
          then np_linalg_solve
              ((base_data.map (fun c => x_to_world c.lidar_pose)).getD j 1)
              ((base_data.map (fun c => x_to_world c.lidar_pose)).getD i 1)
          else 1 := by
      intro i j
      unfold get_pairwise_transformation
      rw [if_neg (by simp)]
      rw [foldl_outer_get]
      simp [List.mem_range]
    refine ⟨fun h => by simp at h, ?_, ?_⟩
    · intro i j hij
      rw [hmain]
      rw [if_neg (by intro hc; rcases hij with h | h | h <;> omega)]
    · intro _ i j hi hj hij
      have hsolve : get_pairwise_transformation x_to_world false base_data max_cav i j
          = np_linalg_solve (x_to_world ((base_data.getD j ⟨[]⟩).lidar_pose))
              (x_to_world ((base_data.getD i ⟨[]⟩).lidar_pose)) := by
        rw [hmain, if_pos ⟨hi, hj, hij⟩,
          getD_map_lt (fun c => x_to_world c.lidar_pose) 1 ⟨[]⟩ base_data j hj,
          getD_map_lt (fun c => x_to_world c.lidar_pose) 1 ⟨[]⟩ base_data i hi]
      refine ⟨hsolve, ?_⟩
      rw [hsolve]
      exact np_linalg_solve_is_solve _ _ (hdet _)

/-- Witness for `pairwise_transformation_spec` at a concrete input: two
retained agents, `max_cav = 5`, `proj_first = false`, the identity world
transform. -/
theorem pairwise_transformation_spec_witness :
    (∀ p : List ℚ, ((fun _ => (1 : Mat4)) p).det ≠ 0)
    ∧ ((false = true → ∀ i j, get_pairwise_transformation (fun _ => (1 : Mat4))
          false [⟨[0, 0, 0, 0, 0, 0]⟩, ⟨[10, 0, 0, 0, 0, 0]⟩] 5 i j = 1)
      ∧ (∀ i j, i = j
            ∨ ([⟨[0, 0, 0, 0, 0, 0]⟩, ⟨[10, 0, 0, 0, 0, 0]⟩] : List PWCav).length ≤ i
            ∨ ([⟨[0, 0, 0, 0, 0, 0]⟩, ⟨[10, 0, 0, 0, 0, 0]⟩] : List PWCav).length ≤ j →
          get_pairwise_transformation (fun _ => (1 : Mat4)) false
            [⟨[0, 0, 0, 0, 0, 0]⟩, ⟨[10, 0, 0, 0, 0, 0]⟩] 5 i j = 1)
      ∧ (false = false → ∀ i j,
          i < ([⟨[0, 0, 0, 0, 0, 0]⟩, ⟨[10, 0, 0, 0, 0, 0]⟩] : List PWCav).length →
          j < ([⟨[0, 0, 0, 0, 0, 0]⟩, ⟨[10, 0, 0, 0, 0, 0]⟩] : List PWCav).length →
          i ≠ j →
          get_pairwise_transformation (fun _ => (1 : Mat4)) false
            [⟨[0, 0, 0, 0, 0, 0]⟩, ⟨[10, 0, 0, 0, 0, 0]⟩] 5 i j
            = np_linalg_solve
                ((fun _ => (1 : Mat4))
                  ((([⟨[0, 0, 0, 0, 0, 0]⟩, ⟨[10, 0, 0, 0, 0, 0]⟩] : List PWCav).getD j
                      ⟨[]⟩).lidar_pose))
                ((fun _ => (1 : Mat4))
                  ((([⟨[0, 0, 0, 0, 0, 0]⟩, ⟨[10, 0, 0, 0, 0, 0]⟩] : List PWCav).getD i
                      ⟨[]⟩).lidar_pose))
          ∧ (fun _ => (1 : Mat4))
                ((([⟨[0, 0, 0, 0, 0, 0]⟩, ⟨[10, 0, 0, 0, 0, 0]⟩] : List PWCav).getD j
                    ⟨[]⟩).lidar_pose)
              * get_pairwise_transformation (fun _ => (1 : Mat4)) false
                  [⟨[0, 0, 0, 0, 0, 0]⟩, ⟨[10, 0, 0, 0, 0, 0]⟩] 5 i j
            = (fun _ => (1 : Mat4))
                ((([⟨[0, 0, 0, 0, 0, 0]⟩, ⟨[10, 0, 0, 0, 0, 0]⟩] : List PWCav).getD i
                    ⟨[]⟩).lidar_pose))) :=
  ⟨fun _ => by simp,
   pairwise_transformation_spec (fun _ => (1 : Mat4)) false
     [⟨[0, 0, 0, 0, 0, 0]⟩, ⟨[10, 0, 0, 0, 0, 0]⟩] 5 (fun _ => by simp)⟩

/-!
## Batch collation (`merge_features_to_dict`, `collate_batch_train`,
`collate_batch_test`; lines 568-730)

Feature payloads are modelled with concrete simple types; the preprocessor
and postprocessor collators (`pre_processor.collate_batch`,
`post_processor.collate_batch`, `downsample_lidar_minimum`) are external
collaborators passed in as opaque total functions.  `self.kd_flag` and
`self.visualize` are class-field flags set outside this file's sources and
appear as configuration booleans.
-/

/-- A feature table: rows of integers (for `voxel_coords` the first column
is the batch index). -/
abbrev Feat := List (List Int)

/-- A per-sample merged feature dict: feature name to the list of per-cav
feature tables. -/
abbrev FeatDict := List (String × List Feat)

/-- A batched feature dict produced by the preprocessor's `collate_batch`:
feature name to one collated table. -/
abbrev BatchedFeatDict := List (String × Feat)

/-- `merged_feature_dict[feature_name] += feature` with on-demand key
creation (lines 590-595; the values here are lists, so the
`isinstance(feature, list)` branch applies). -/
def assocAppend : FeatDict → String → List Feat → FeatDict
  | [], k, v => [(k, v)]
  | (k2, v2) :: rest, k, v =>
      if k = k2 then (k2, v2 ++ v) :: rest else (k2, v2) :: assocAppend rest k v

/-- `merge_features_to_dict` (lines 568-596). -/
def merge_features_to_dict (ds : List FeatDict) : FeatDict :=
  ds.foldl (fun acc d => d.foldl (fun acc2 kv => assocAppend acc2 kv.1 kv.2) acc) []

/-- One sample's `'ego'` dict as produced for collation (the keys written
by `__getitem__`, lines 434-457). -/
structure EgoSample where
  object_bbx_center : List (List ℚ)
  object_bbx_mask : List ℚ
  object_ids : List Int
  anchor_box : Option (List ℚ)
  processed_lidar : FeatDict
  label_dict : List ℚ
  cav_num : Int
  pairwise_t_matrix : List (List (List (List ℚ)))
  lidar_poses : List (List ℚ)
  lidar_poses_clean : List (List ℚ)
  sample_idx : Int
  cav_id_list : List String
  teacher_processed_lidar : Option FeatDict
  origin_lidar : Option Cloud

/-- The configuration consulted by the collators. -/
structure CollateCfg where
  core_method : String
  kd_flag : Bool
  visualize : Bool

/-- The opaque external collaborators consumed by the collators. -/
structure Collaborators where
  preCollate : FeatDict → BatchedFeatDict
  labelCollate : List (List ℚ) → List ℚ
  teacherCollate : List FeatDict → BatchedFeatDict
  downsample : List Cloud → List Cloud

/-- The output dict of `collate_batch_train` (lines 669-689; the copies of
`pairwise_t_matrix` and `record_len` inserted into `label_dict` at lines
664-665 carry the same values as the top-level fields and are not
modelled separately). -/
structure TrainOut where
  object_bbx_center : List (List (List ℚ))
  object_bbx_mask : List (List ℚ)
  processed_lidar : BatchedFeatDict
  record_len : List Int
  label_dict : List ℚ
  object_ids : List Int
  pairwise_t_matrix : List (List (List (List (List ℚ))))
  lidar_pose_clean : List (List ℚ)
  lidar_pose : List (List ℚ)
  origin_lidar : Option Cloud
  teacher_processed_lidar : Option BatchedFeatDict
  deriving DecidableEq

/-- `tensor[:, 0].max()`: torch raises on an empty tensor. -/
def torchColumnMax (tbl : Feat) : Except PyErr Int :=
  match tbl.map (fun r => r.headD 0) with
  | [] => .error (.valueError "max of empty tensor")
  | x :: xs => .ok (xs.foldl max x)

/-- `collate_batch_train` (lines 598-695).  The per-sample loop reads only
total fields except `teacher_processed_lidar` / `origin_lidar`, whose
gathering (hoisted here per flag) raises `KeyError` when the key is
missing; `np.concatenate` of the empty pose list raises `ValueError`
(line 655); the final consistency check (lines 691-693) runs only under
the `'SpVoxelPreprocessor'` core method and returns `None` — not an
exception — on a batch-index mismatch. -/
def collate_batch_train (cfg : CollateCfg) (co : Collaborators)
    (batch : List EgoSample) : Except PyErr (Option TrainOut) := do
  let teacher_list ←
    if cfg.kd_flag then
      batch.mapM (fun s => match s.teacher_processed_lidar with
        | some t => Except.ok t
        | none => Except.error (PyErr.keyError "teacher_processed_lidar"))
    else pure []
  let origin_list ←
    if cfg.visualize then
      batch.mapM (fun s => match s.origin_lidar with
        | some t => Except.ok t
        | none => Except.error (PyErr.keyError "origin_lidar"))
    else pure []
  let object_bbx_center := batch.map (fun s => s.object_bbx_center)
  let object_bbx_mask := batch.map (fun s => s.object_bbx_mask)
  let object_ids := batch.map (fun s => s.object_ids)
  let lidar_pose_list := batch.map (fun s => s.lidar_poses)
  let lidar_pose_clean_list := batch.map (fun s => s.lidar_poses_clean)
  let processed_lidar_list := batch.map (fun s => s.processed_lidar)
  let record_len := batch.map (fun s => s.cav_num)
  let label_dict_list := batch.map (fun s => s.label_dict)
  let pairwise_t_matrix_list := batch.map (fun s => s.pairwise_t_matrix)
  let merged_feature_dict := merge_features_to_dict processed_lidar_list
  let processed_lidar_torch_dict := co.preCollate merged_feature_dict
  if batch.isEmpty then Except.error (PyErr.valueError "concatenate") else do
  let lidar_pose := lidar_pose_list.flatten
  let lidar_pose_clean := lidar_pose_clean_list.flatten
  let label_torch_dict := co.labelCollate label_dict_list
  let out : TrainOut :=
    { object_bbx_center := object_bbx_center,
      object_bbx_mask := object_bbx_mask,
      processed_lidar := processed_lidar_torch_dict,
      record_len := record_len,
      label_dict := label_torch_dict,
      object_ids := object_ids.headD [],
      pairwise_t_matrix := pairwise_t_matrix_list,
      lidar_pose_clean := lidar_pose_clean,
      lidar_pose := lidar_pose,
      origin_lidar :=
        if cfg.visualize then some (co.downsample origin_list).flatten else none,
      teacher_processed_lidar :=
        if cfg.kd_flag then some (co.teacherCollate teacher_list) else none }
  if cfg.core_method = "SpVoxelPreprocessor" then
    match processed_lidar_torch_dict.lookup "voxel_coords" with
    | none => Except.error (PyErr.keyError "voxel_coords")
    | some tbl => do
        let m ← torchColumnMax tbl
        if m + 1 ≠ record_len.sum then pure none else pure (some out)
  else pure (some out)

/-- `np.identity(4)`. -/
def np_identity4 : List (List ℚ) :=
  [[1, 0, 0, 0], [0, 1, 0, 0], [0, 0, 1, 0], [0, 0, 0, 1]]

/-- The output dict of `collate_batch_test`: the training output plus the
keys attached at lines 704-726. -/
structure TestOut where
  base : TrainOut
  anchor_box : Option (List ℚ)
  transformation_matrix : List (List ℚ)
  transformation_matrix_clean : List (List ℚ)
  sample_idx : Int
  cav_id_list : List String
  deriving DecidableEq

/-- `collate_batch_test` (lines 697-730): `assert len(batch) <= 1` — note
`<=`, not `==` — then delegation to `collate_batch_train`, `None`
passthrough, and the attachment of the anchor box (key present only when
the sample has one), identity transformation matrices, `sample_idx`, and
`cav_id_list` read from `batch[0]`. -/
def collate_batch_test (cfg : CollateCfg) (co : Collaborators)
    (batch : List EgoSample) : Except PyErr (Option TestOut) := do
  if 1 < batch.length then Except.error PyErr.assertionError else do
  let out? ← collate_batch_train cfg co batch
  match out? with
  | none => pure none
  | some od =>
    match batch with
    | [] => Except.error PyErr.indexError
    | s :: _ =>
        pure (some
          { base := od,
            anchor_box := s.anchor_box,
            transformation_matrix := np_identity4,
            transformation_matrix_clean := np_identity4,
            sample_idx := s.sample_idx,
            cav_id_list := s.cav_id_list })

/-- Whether a collation result is a valid (non-`None`, non-raising)
batch. -/
def isValidBatch {β : Type} : Except PyErr (Option β) → Bool
  | .ok (some _) => true
  | _ => false

/-- A concrete collaborator set whose preprocessor collation reports a
single batch-index group. -/
def collabOneGroup : Collaborators :=
  { preCollate := fun _ => [("voxel_coords", [[0]])],
    labelCollate := fun _ => [],
    teacherCollate := fun _ => [],
    downsample := fun x => x }

/-- A concrete sample claiming five contributing agents. -/
def sampleFiveCavs : EgoSample :=
  { object_bbx_center := [], object_bbx_mask := [], object_ids := [],
    anchor_box := none, processed_lidar := [], label_dict := [],
    cav_num := 5, pairwise_t_matrix := [], lidar_poses := [[0, 0, 0, 0, 0, 0]],
    lidar_poses_clean := [[0, 0, 0, 0, 0, 0]], sample_idx := 0,
    cav_id_list := ["cav0"], teacher_processed_lidar := none,
    origin_lidar := none }

/-- Claim C7 counterexample: under a preprocessor whose `core_method` is
not `'SpVoxelPreprocessor'`, a batch whose collated batch-index column
spans 1 group while `sum(record_len) = 5` is returned as a valid batch —
the verification is skipped entirely, so the claim's "for every input
batch" is false. -/
theorem collate_train_skips_check_for_other_core :
    isValidBatch (collate_batch_train ⟨"OtherPreprocessor", false, false⟩
        collabOneGroup [sampleFiveCavs]) = true
    ∧ torchColumnMax [[0]] = .ok 0
    ∧ ((0 : Int) + 1)
        ≠ (([sampleFiveCavs].map (fun s => s.cav_num)).sum) := by
  refine ⟨rfl, rfl, by decide⟩

/-- Claim C7 (amended): `collate_batch_train` performs the batch-index
verification only when the preprocessor's `core_method` is
`'SpVoxelPreprocessor'`; then, on a nonempty batch whose collated
`voxel_coords` batch-index column spans a number of groups different from
`sum(record_len)`, it returns the explicit invalid-batch signal `None`
(a normal return, not an exception). -/
theorem collate_train_mismatch_returns_none (cfg : CollateCfg)
    (co : Collaborators) (batch : List EgoSample) (tbl : Feat) (m : Int)
    (hcore : cfg.core_method = "SpVoxelPreprocessor")
    (hne : batch ≠ [])
    (hkd : cfg.kd_flag = false)
    (hvis : cfg.visualize = false)
    (htbl : (co.preCollate (merge_features_to_dict
        (batch.map (fun s => s.processed_lidar)))).lookup "voxel_coords"
        = some tbl)
    (hmax : torchColumnMax tbl = .ok m)
    (hmm : m + 1 ≠ (batch.map (fun s => s.cav_num)).sum) :
    collate_batch_train cfg co batch = .ok none := by
  have hie : batch.isEmpty = false := by
    cases batch with
    | nil => exact absurd rfl hne
    | cons a t => rfl
  unfold collate_batch_train
  rw [hkd, hvis, hcore]
  simp only [Bool.false_eq_true, if_false, Bind.bind, Except.bind, pure,
    Except.pure, hie, htbl, hmax]
  simp [hmm]

/-- Witness for `collate_train_mismatch_returns_none` at a concrete
input: the `'SpVoxelPreprocessor'` core method, one sample reporting five
agents, and a collated batch-index column spanning one group. -/
theorem collate_train_mismatch_returns_none_witness :
    (CollateCfg.core_method ⟨"SpVoxelPreprocessor", false, false⟩
        = "SpVoxelPreprocessor")
    ∧ ([sampleFiveCavs] : List EgoSample) ≠ []
    ∧ (Collaborators.preCollate collabOneGroup (merge_features_to_dict
        ([sampleFiveCavs].map (fun s => s.processed_lidar)))).lookup "voxel_coords"
        = some [[0]]
    ∧ torchColumnMax [[0]] = .ok 0
    ∧ ((0 : Int) + 1) ≠ (([sampleFiveCavs].map (fun s => s.cav_num)).sum)
    ∧ collate_batch_train ⟨"SpVoxelPreprocessor", false, false⟩ collabOneGroup
        [sampleFiveCavs] = .ok none :=
  ⟨rfl, by simp, rfl, rfl, by decide,
   collate_train_mismatch_returns_none ⟨"SpVoxelPreprocessor", false, false⟩
     collabOneGroup [sampleFiveCavs] [[0]] 0 rfl (by simp) rfl rfl rfl rfl
     (by decide)⟩

/-- Equality of embedded computation results is decidable. -/
instance {ε α : Type} [DecidableEq ε] [DecidableEq α] :
    DecidableEq (Except ε α) := fun x y =>
  match x, y with
  | .ok a, .ok b =>
      if h : a = b then .isTrue (congrArg Except.ok h)
      else .isFalse (fun hc => h (Except.ok.inj hc))
  | .error a, .error b =>
      if h : a = b then .isTrue (congrArg Except.error h)
      else .isFalse (fun hc => h (Except.error.inj hc))
  | .ok _, .error _ => .isFalse (fun hc => Except.noConfusion hc)
  | .error _, .ok _ => .isFalse (fun hc => Except.noConfusion hc)

/-- Claim C8 counterexample: the empty batch has size different from 1 yet
passes the `assert len(batch) <= 1` gate; it fails later with the
`ValueError` of `np.concatenate([])` on the empty pose list, not with the
configuration-error rejection the claim describes. -/
theorem collate_test_empty_batch_not_rejected :
    collate_batch_test ⟨"OtherPreprocessor", false, false⟩ collabOneGroup []
      = .error (.valueError "concatenate")
    ∧ (([] : List EgoSample).length ≠ 1)
    ∧ collate_batch_test ⟨"OtherPreprocessor", false, false⟩ collabOneGroup []
      ≠ .error .assertionError := by
  refine ⟨rfl, by decide, by decide⟩

/-- The attachment `collate_batch_test` performs on a successful delegated
batch (lines 704-726). -/
def attachTest (od : TrainOut) (s : EgoSample) : TestOut :=
  { base := od,
    anchor_box := s.anchor_box,
    transformation_matrix := np_identity4,
    transformation_matrix_clean := np_identity4,
    sample_idx := s.sample_idx,
    cav_id_list := s.cav_id_list }

/-- Claim C8 (amended): `collate_batch_test` rejects any batch of size
strictly greater than 1 with the assertion (the configuration error); a
size-1 batch is delegated to training-mode collation, and whenever that
yields a batch (rather than `None` or an exception), the identity 4×4
transformation-matrix placeholders, the sample's original flat index, the
retained-agent id list, and the sample's anchor box are attached to the
output. -/
theorem collate_test_amended (cfg : CollateCfg) (co : Collaborators) :
    (∀ batch : List EgoSample, 1 < batch.length →
      collate_batch_test cfg co batch = .error .assertionError)
    ∧ (∀ s : EgoSample,
      collate_batch_test cfg co [s]
        = (collate_batch_train cfg co [s]).map
            (fun o => o.map (fun od => attachTest od s))) := by
  constructor
  · intro batch h
    unfold collate_batch_test
    rw [if_pos h]
  · intro s
    unfold collate_batch_test
    rw [if_neg (by simp)]
    cases htr : collate_batch_train cfg co [s] with
    | error e => simp [Bind.bind, Except.bind, htr, Except.map]
    | ok o =>
      cases o with
      | none =>
          simp [Bind.bind, Except.bind, htr, Except.map, pure, Except.pure]
      | some od =>
          simp [Bind.bind, Except.bind, htr, Except.map, pure, Except.pure,
            attachTest]

/-- Witness for `collate_test_amended` at a concrete input: a two-sample
batch is rejected by the assertion. -/
theorem collate_test_amended_witness :
    (1 < ([sampleFiveCavs, sampleFiveCavs] : List EgoSample).length)
    ∧ collate_batch_test ⟨"OtherPreprocessor", false, false⟩ collabOneGroup
        [sampleFiveCavs, sampleFiveCavs] = .error .assertionError :=
  ⟨by decide,
   (collate_test_amended ⟨"OtherPreprocessor", false, false⟩ collabOneGroup).1
     [sampleFiveCavs, sampleFiveCavs] (by decide)⟩
